import Mathlib

/-!
Shallow embedding of the ReadyMetronome core (src/metronome.rs and src/menu.rs)
and proofs about its beat counting, engine cycle, tick execution and menu
navigation.

Modelling conventions:
* Rust `u64`/`usize` fields are `Nat`; where the source performs an unchecked
  addition on a `u64` the model wraps explicitly modulo `2 ^ 64`
  (release-profile semantics of overflow).
* `f64` volume is idealised as an exact rational `Rat`; no claim depends on
  floating-point rounding.
* Atomic loads/stores with relaxed ordering are modelled by explicit state
  passing: one engine loop iteration is a pure function of the shared settings
  snapshot at that wake-up, and interleaved ControlSurface writes happen
  between iterations.
* Rust panics (out-of-bounds `Vec` indexing, `Option::unwrap` on `None`,
  `usize` underflow) are modelled as `none` / a dedicated `panicked` outcome.
* Wall-clock instants (`Instant::now()`) are `Nat` timestamps;
  `Duration::duration_since` is truncated subtraction, matching its
  saturating behaviour.
-/

namespace ReadyMetronome

/-- One past the largest `u64` value: unchecked `u64` additions wrap mod this. -/
def U64LIM : Nat := 2 ^ 64

/-- The shared settings record (struct `MetronomeSettings`,
src/metronome.rs lines 43-61).  Every field is an atomic in the source; here
it is a plain field of the snapshot passed to each step. -/
structure MetronomeSettings where
  bpm : Nat
  ns_delay : Nat
  ts_note : Nat
  ts_value : Nat
  ts_triplets : Bool
  sub_eights : Bool
  sub_sixteens : Bool
  current_beat_count : Nat
  beats_per_bar : Nat
  bar_count : Nat
  is_running : Bool
  volume : Rat
  sound_list : List String
  selected_sound : Nat
  tick_count : Nat
  debug : Bool
  error : Bool
deriving Repr, DecidableEq

/-- `Metronome::beat_count` (src/metronome.rs lines 175-189): if the current
beat equals `beats_per_bar` reset it to 1 and increment `bar_count`, otherwise
increment the current beat.  Both `u64` increments wrap. -/
def beat_count (s : MetronomeSettings) : MetronomeSettings :=
  if s.current_beat_count = s.beats_per_bar then
    { s with current_beat_count := 1,
             bar_count := (s.bar_count + 1) % U64LIM }
  else
    { s with current_beat_count := (s.current_beat_count + 1) % U64LIM }

/-- `n` successive calls of `beat_count` (the counter advance of `n`
successful ticks). -/
def beatIter : Nat → MetronomeSettings → MetronomeSettings
  | 0, s => s
  | n + 1, s => beat_count (beatIter n s)

/-- A concrete settings snapshot in the reset state written by
src/metronome.rs lines 137-138 (`bar_count = 1`, `current_beat_count = 0`),
with effective beats-per-bar 4. -/
def sampleSettings : MetronomeSettings :=
  { bpm := 120
    ns_delay := 500000000
    ts_note := 4
    ts_value := 4
    ts_triplets := false
    sub_eights := false
    sub_sixteens := false
    current_beat_count := 0
    beats_per_bar := 4
    bar_count := 1
    is_running := true
    volume := 100
    sound_list := ["EmeryBoardClick.wav"]
    selected_sound := 0
    tick_count := 0
    debug := false
    error := false }

/-- Current beat after one `beat_count` step, as a conditional. -/
lemma beat_count_current (s : MetronomeSettings) :
    (beat_count s).current_beat_count =
      if s.current_beat_count = s.beats_per_bar then 1
      else (s.current_beat_count + 1) % U64LIM := by
  unfold beat_count; split <;> rfl

/-- Bar count after one `beat_count` step, as a conditional. -/
lemma beat_count_bar (s : MetronomeSettings) :
    (beat_count s).bar_count =
      if s.current_beat_count = s.beats_per_bar then (s.bar_count + 1) % U64LIM
      else s.bar_count := by
  unfold beat_count; split <;> rfl

/-- `beat_count` never changes `beats_per_bar`. -/
lemma beat_count_beats_per_bar (s : MetronomeSettings) :
    (beat_count s).beats_per_bar = s.beats_per_bar := by
  unfold beat_count; split <;> rfl

/-- Invariant of iterated `beat_count` from the reset state: after `k + 1`
ticks the current beat is `k % B + 1` and the bar count is `1 + k / B`,
as long as no counter leaves the `u64` range. -/
lemma beatIter_inv (B : Nat) (hB : 1 ≤ B) (hBM : B < U64LIM)
    (s : MetronomeSettings) (hc : s.current_beat_count = 0)
    (hb : s.bar_count = 1) (hpb : s.beats_per_bar = B) :
    ∀ k, k + 2 ≤ U64LIM →
      (beatIter (k + 1) s).current_beat_count = k % B + 1 ∧
      (beatIter (k + 1) s).bar_count = 1 + k / B ∧
      (beatIter (k + 1) s).beats_per_bar = B := by
  intro k
  induction k with
  | zero =>
      intro _
      have hne : ¬ (0 = B) := by omega
      have h1 : (0 + 1) % U64LIM = 1 := Nat.mod_eq_of_lt (by omega)
      simp only [beatIter, beat_count_current, beat_count_bar,
        beat_count_beats_per_bar, hc, hb, hpb, if_neg hne, h1]
      exact ⟨by simp, by simp, trivial⟩
  | succ k ih =>
      intro hk2
      obtain ⟨ihc, ihb, ihp⟩ := ih (by omega)
      have hdm := Nat.div_add_mod k B
      have hmlt : k % B < B := Nat.mod_lt _ (by omega)
      have hdiv_le : k / B ≤ k := Nat.div_le_self k B
      have hstep : beatIter (k + 1 + 1) s = beat_count (beatIter (k + 1) s) := rfl
      rw [hstep, beat_count_current, beat_count_bar, beat_count_beats_per_bar,
        ihc, ihb, ihp]
      by_cases h : k % B + 1 = B
      · -- the bar wraps: `k + 1` is a multiple of `B`
        have hk1 : k + 1 = B * (k / B + 1) := by
          rw [Nat.mul_add, Nat.mul_one]; omega
        have hmod : (k + 1) % B = 0 := by rw [hk1]; exact Nat.mul_mod_right _ _
        have hdivs : (k + 1) / B = k / B + 1 := by
          rw [hk1]; exact Nat.mul_div_cancel_left _ (by omega)
        have hblt : 1 + k / B + 1 < U64LIM := by omega
        simp only [if_pos h]
        exact ⟨by rw [hmod], by rw [Nat.mod_eq_of_lt hblt, hdivs]; omega, trivial⟩
      · -- no wrap: the current beat just increments
        have hmle : k % B ≤ k := Nat.mod_le k B
        have hk1 : k + 1 = B * (k / B) + (k % B + 1) := by omega
        have hmod : (k + 1) % B = k % B + 1 := by
          rw [hk1, Nat.mul_add_mod]; exact Nat.mod_eq_of_lt (by omega)
        have hdivs : (k + 1) / B = k / B := by
          rw [hk1, Nat.mul_add_div (by omega : 0 < B)]
          simp [Nat.div_eq_of_lt (by omega : k % B + 1 < B)]
        have hlt2 : k % B + 1 + 1 < U64LIM := by omega
        simp only [if_neg h]
        exact ⟨by rw [Nat.mod_eq_of_lt hlt2, hmod], by rw [hdivs], trivial⟩

/-- C1 counterexample: with `B = 1`, after `N = 1` tick from the reset state
the bar count is `1`, not `(N - 1) / B = 0` as the claim states. -/
theorem c1_bar_count_counterexample :
    ¬ ((beatIter 1 { sampleSettings with beats_per_bar := 1 }).current_beat_count
          = (1 - 1) % 1 + 1 ∧
       (beatIter 1 { sampleSettings with beats_per_bar := 1 }).bar_count
          = (1 - 1) / 1) := by
  decide

/-- C1 (amended): starting from the reset state (`current_beat_count = 0`,
`bar_count = 1`), for every `N ≥ 1` and effective beats-per-bar `B ≥ 1`
within the `u64` range, after `N` ticks the current beat in the bar is
`(N - 1) % B + 1` and the bar count is `1 + (N - 1) / B` — the reset value 1
plus the number of completed bars. -/
theorem c1_beat_counting_amended (B N : Nat) (hB : 1 ≤ B) (hBM : B < U64LIM)
    (hN : 1 ≤ N) (hNM : N < U64LIM) (s : MetronomeSettings)
    (hc : s.current_beat_count = 0) (hb : s.bar_count = 1)
    (hpb : s.beats_per_bar = B) :
    (beatIter N s).current_beat_count = (N - 1) % B + 1 ∧
    (beatIter N s).bar_count = 1 + (N - 1) / B := by
  obtain ⟨k, rfl⟩ : ∃ k, N = k + 1 := ⟨N - 1, by omega⟩
  have h := beatIter_inv B hB hBM s hc hb hpb k (by omega)
  simpa using ⟨h.1, h.2.1⟩

/-- C1 witness: the amended formula evaluated at `B = 4`, `N = 5` from the
concrete reset snapshot. -/
theorem c1_beat_counting_witness :
    (beatIter 5 sampleSettings).current_beat_count = (5 - 1) % 4 + 1 ∧
    (beatIter 5 sampleSettings).bar_count = 1 + (5 - 1) / 4 :=
  c1_beat_counting_amended 4 5 (by omega) (by unfold U64LIM; omega)
    (by omega) (by unfold U64LIM; omega) sampleSettings rfl rfl rfl

/-- C2 counterexample: with `beats_per_bar = 4`, after exactly 4 ticks from
the reset state the current beat is `4` (not back to `1`) and the bar count
is still `1` (not incremented). -/
theorem c2_wraparound_counterexample :
    ¬ ((beatIter 4 sampleSettings).current_beat_count = 1 ∧
       (beatIter 4 sampleSettings).bar_count = 2) := by
  decide

/-- C2 (amended): with effective beats-per-bar 4, the wrap happens one tick
later than the claim states — after exactly 4 ticks from the reset state the
current beat is 4 and the bar count is still at its reset value 1, and after
exactly 5 ticks the current beat returns to 1 and the bar count has
incremented from its reset value 1 to 2. -/
theorem c2_wraparound_amended :
    (beatIter 4 sampleSettings).current_beat_count = 4 ∧
    (beatIter 4 sampleSettings).bar_count = 1 ∧
    (beatIter 5 sampleSettings).current_beat_count = 1 ∧
    (beatIter 5 sampleSettings).bar_count = 2 := by
  decide

/-- The filesystem/audio environment one call of `metronome_tick` runs in:
whether `File::open` on the asset path succeeds, whether `Decoder::new`
succeeds on the opened file, and whether `play_raw` accepts the source. -/
structure TickEnv where
  open_ok : Bool
  decode_ok : Bool
  play_ok : Bool
deriving Repr, DecidableEq

/-- How one `metronome_tick` call terminates: an `Ok(())` return, an
`Err` return (the single SoundLoadError kind), or a Rust panic. -/
inductive TickOutcome where
  | success : TickOutcome
  | soundLoadError : TickOutcome
  | panicked : TickOutcome
deriving Repr, DecidableEq

/-- What one `metronome_tick` call did: how it terminated, and the
amplification factor handed to `play_raw` when playback was dispatched. -/
structure TickEffect where
  outcome : TickOutcome
  play_request : Option Rat
deriving Repr, DecidableEq

/-- `metronome_tick` (src/metronome.rs lines 192-210).  A failed
`File::open` returns the one error kind (`eyre` report, line 202); a failed
`Decoder::new` hits `.unwrap()` and panics (line 207); the `Result` of
`play_raw` is discarded with `let _ =` (line 208), so a play failure still
returns `Ok(())`.  The `(volume / 100.0) as f32` amplification is idealised
as the exact rational `volume / 100`. -/
def metronome_tick (env : TickEnv) (volume : Rat) : TickEffect :=
  if env.open_ok = false then
    { outcome := TickOutcome.soundLoadError, play_request := none }
  else if env.decode_ok = false then
    { outcome := TickOutcome.panicked, play_request := none }
  else
    { outcome := TickOutcome.success, play_request := some (volume / 100) }

/-- `Metronome::start_tick_thread` (src/metronome.rs lines 156-172).
`sound_list[selected_sound]` panics when out of bounds (`none` here); the
spawned worker runs `metronome_tick` and sets the error flag only when it
returns `Err` (a panic in the worker kills only the worker, and the
`handler.join()` result is discarded); after the join, `beat_count` runs
unconditionally. -/
def start_tick_thread (env : TickEnv) (s : MetronomeSettings) :
    Option MetronomeSettings :=
  match s.sound_list.get? s.selected_sound with
  | none => none
  | some _ =>
      let t := metronome_tick env s.volume
      let s1 := if t.outcome = TickOutcome.soundLoadError
                then { s with error := true } else s
      some (beat_count s1)

/-- Loop-local state of `Metronome::start` (src/metronome.rs lines 102-107):
the `running` flag loaded at the end of the previous iteration, the
`first_tick` marker, and the `last_tick` timestamp (a `Nat` instant). -/
structure LoopState where
  running : Bool
  first_tick : Bool
  last_tick : Nat
deriving Repr, DecidableEq

/-- Result of one iteration of the loop in `Metronome::start`:
`halted` is the `return` on an observed error (line 117), `panicked` is an
out-of-bounds sound index killing the engine thread, and `next` carries the
loop state and settings for the following iteration together with whether
this iteration dispatched a tick. -/
inductive CycleOut where
  | halted : CycleOut
  | panicked : CycleOut
  | next : LoopState → MetronomeSettings → Bool → CycleOut
deriving Repr, DecidableEq

/-- The running half of one loop iteration (src/metronome.rs lines 114-133):
exit on an observed error; otherwise fire immediately on the first tick, or
compare the elapsed time since `last_tick` against a fresh load of
`ns_delay`.  `now` is the instant of this wake-up; `duration_since` is
truncated subtraction. -/
def runPhase (now : Nat) (env : TickEnv) (ls : LoopState)
    (s : MetronomeSettings) : CycleOut :=
  if ls.running then
    if s.error then CycleOut.halted
    else if ls.first_tick then
      match start_tick_thread env s with
      | none => CycleOut.panicked
      | some s1 =>
          CycleOut.next { ls with first_tick := false, last_tick := now } s1 true
    else if s.ns_delay ≤ now - ls.last_tick then
      match start_tick_thread env s with
      | none => CycleOut.panicked
      | some s1 => CycleOut.next { ls with last_tick := now } s1 true
    else CycleOut.next ls s false
  else CycleOut.next ls s false

/-- The tail of one loop iteration (src/metronome.rs lines 135-151): reload
`is_running`; when it is false, reset `bar_count` to 1 and
`current_beat_count` to 0 and mark the next tick as a first tick; then (after
the sleep, which has no state effect) the debug branch bumps `tick_count`
with `checked_add(1).unwrap_or(0)` when the debug flag is set and a full
refresh period has elapsed (`debugElapsed`). -/
def postPhase (debugElapsed : Bool) : CycleOut → CycleOut
  | CycleOut.next ls s ticked =>
      let running2 := s.is_running
      let s2 := if running2 = false
                then { s with bar_count := 1, current_beat_count := 0 } else s
      let ft2 := if running2 = false then true else ls.first_tick
      let s3 := if s2.debug && debugElapsed then
          { s2 with tick_count :=
              if s2.tick_count + 1 = U64LIM then 0 else s2.tick_count + 1 }
        else s2
      CycleOut.next { ls with running := running2, first_tick := ft2 } s3 ticked
  | out => out

/-- One full iteration of the loop in `Metronome::start`
(src/metronome.rs lines 109-152). -/
def engineCycle (now : Nat) (env : TickEnv) (debugElapsed : Bool)
    (ls : LoopState) (s : MetronomeSettings) : CycleOut :=
  postPhase debugElapsed (runPhase now env ls s)

/-- Whether a cycle outcome dispatched a tick (none when the loop exited). -/
def CycleOut.ticked : CycleOut → Option Bool
  | CycleOut.next _ _ t => some t
  | _ => none

/-- The loop state a cycle outcome continues with. -/
def CycleOut.loopState : CycleOut → Option LoopState
  | CycleOut.next ls _ _ => some ls
  | _ => none

/-- The settings a cycle outcome continues with. -/
def CycleOut.settings : CycleOut → Option MetronomeSettings
  | CycleOut.next _ s _ => some s
  | _ => none

/-- The tuple of fields the write-ownership split reserves to the
ControlSurface: bpm, delay, time-signature fields, subdivision flags,
beats-per-bar, volume, sound selection, sound list and the running flag. -/
def controlFields (s : MetronomeSettings) :
    Nat × Nat × Nat × Nat × Bool × Bool × Bool × Nat × Rat × List String ×
      Nat × Bool :=
  (s.bpm, s.ns_delay, s.ts_note, s.ts_value, s.ts_triplets, s.sub_eights,
   s.sub_sixteens, s.beats_per_bar, s.volume, s.sound_list,
   s.selected_sound, s.is_running)

/-- The menu/list-selection widget (struct `Menu`, src/menu.rs lines 8-11);
`selected` is `ListState::selected()`. -/
structure Menu where
  items : List String
  selected : Option Nat
deriving Repr, DecidableEq

/-- `Menu::next` (src/menu.rs lines 26-38).  With a current selection the
code compares `i >= self.items.len() - 1`; on an empty list the `usize`
subtraction `0 - 1` underflows (debug panic, modelled as `none`).  With no
selection it selects index 0. -/
def Menu.next (m : Menu) : Option Menu :=
  match m.selected with
  | some i =>
      if m.items.length = 0 then none
      else
        let j := if m.items.length - 1 ≤ i then 0 else i + 1
        some { m with selected := some j }
  | none => some { m with selected := some 0 }

/-- `Menu::previous` (src/menu.rs lines 40-52).  The underflowing
`items.len() - 1` is only evaluated in the `i == 0` branch. -/
def Menu.previous (m : Menu) : Option Menu :=
  match m.selected with
  | some i =>
      if i = 0 then
        if m.items.length = 0 then none
        else some { m with selected := some (m.items.length - 1) }
      else some { m with selected := some (i - 1) }
  | none => some { m with selected := some 0 }

/-- `beat_count` never changes the error flag. -/
lemma beat_count_error (s : MetronomeSettings) :
    (beat_count s).error = s.error := by
  unfold beat_count; split <;> rfl

/-- `beat_count` never changes the ControlSurface-owned fields. -/
lemma controlFields_beat_count (s : MetronomeSettings) :
    controlFields (beat_count s) = controlFields s := by
  unfold beat_count; split <;> rfl

/-- A successful `start_tick_thread` never changes the
ControlSurface-owned fields. -/
lemma controlFields_start_tick_thread {env : TickEnv}
    {s s1 : MetronomeSettings} (h : start_tick_thread env s = some s1) :
    controlFields s1 = controlFields s := by
  simp only [start_tick_thread] at h
  split at h
  · exact Option.noConfusion h
  · simp only [Option.some.injEq] at h
    subst h
    rw [controlFields_beat_count]
    split <;> rfl

/-- When the sound index is in bounds, `start_tick_thread` returns a state
rather than panicking. -/
lemma start_tick_thread_isSome (env : TickEnv) (s : MetronomeSettings)
    (h : (s.sound_list.get? s.selected_sound).isSome = true) :
    ∃ s1, start_tick_thread env s = some s1 := by
  unfold start_tick_thread
  cases hl : s.sound_list.get? s.selected_sound with
  | none => rw [hl] at h; exact absurd h (by simp)
  | some a => exact ⟨_, rfl⟩

/-- Any settings `runPhase` passes on are either untouched or the output of
one `start_tick_thread` call. -/
lemma runPhase_shape (now : Nat) (env : TickEnv) (ls : LoopState)
    (s : MetronomeSettings) (ls1 : LoopState) (s1 : MetronomeSettings)
    (t : Bool) (h : runPhase now env ls s = CycleOut.next ls1 s1 t) :
    s1 = s ∨ start_tick_thread env s = some s1 := by
  unfold runPhase at h
  split at h
  · split at h
    · exact CycleOut.noConfusion h
    · split at h
      · split at h
        · exact CycleOut.noConfusion h
        · rename_i s1' heq
          right
          simp only [CycleOut.next.injEq] at h
          rw [heq, h.2.1]
      · split at h
        · split at h
          · exact CycleOut.noConfusion h
          · rename_i s1' heq
            right
            simp only [CycleOut.next.injEq] at h
            rw [heq, h.2.1]
        · left
          simp only [CycleOut.next.injEq] at h
          exact h.2.1.symm
  · left
    simp only [CycleOut.next.injEq] at h
    exact h.2.1.symm

/-- `runPhase` never writes the ControlSurface-owned fields. -/
lemma controlFields_runPhase {now : Nat} {env : TickEnv} {ls ls1 : LoopState}
    {s s1 : MetronomeSettings} {t : Bool}
    (h : runPhase now env ls s = CycleOut.next ls1 s1 t) :
    controlFields s1 = controlFields s := by
  rcases runPhase_shape now env ls s ls1 s1 t h with h' | h'
  · rw [h']
  · exact controlFields_start_tick_thread h'

/-- `postPhase` never writes the ControlSurface-owned fields. -/
lemma controlFields_postPhase {de : Bool} {ls0 ls1 : LoopState}
    {s0 s1 : MetronomeSettings} {t0 t1 : Bool}
    (h : postPhase de (CycleOut.next ls0 s0 t0) = CycleOut.next ls1 s1 t1) :
    controlFields s1 = controlFields s0 := by
  simp only [postPhase, CycleOut.next.injEq] at h
  obtain ⟨-, h2, -⟩ := h
  subst h2
  split <;> split <;> rfl

/-- One whole engine cycle never writes the ControlSurface-owned fields. -/
lemma engineCycle_frame {now : Nat} {env : TickEnv} {de : Bool}
    {ls ls1 : LoopState} {s s1 : MetronomeSettings} {t : Bool}
    (h : engineCycle now env de ls s = CycleOut.next ls1 s1 t) :
    controlFields s1 = controlFields s := by
  unfold engineCycle at h
  cases hr : runPhase now env ls s with
  | halted => rw [hr] at h; exact CycleOut.noConfusion h
  | panicked => rw [hr] at h; exact CycleOut.noConfusion h
  | next ls0 s0 t0 =>
      rw [hr] at h
      exact (controlFields_postPhase h).trans (controlFields_runPhase hr)

/-- Projecting the running flag out of a `controlFields` equality. -/
lemma is_running_of_controlFields {s1 s2 : MetronomeSettings}
    (h : controlFields s1 = controlFields s2) :
    s1.is_running = s2.is_running := by
  have h12 := congrArg (fun p => p.2.2.2.2.2.2.2.2.2.2.2) h
  simpa using h12

/-- `runPhase` on a not-running loop state does nothing. -/
lemma runPhase_not_running (now : Nat) (env : TickEnv) (ls : LoopState)
    (s : MetronomeSettings) (h : ls.running = false) :
    runPhase now env ls s = CycleOut.next ls s false := by
  simp [runPhase, h]

/-- C4 core at the `runPhase` level: a running loop state that observes the
error flag returns out of the loop before any trigger. -/
lemma runPhase_error (now : Nat) (env : TickEnv) (ls : LoopState)
    (s : MetronomeSettings) (h1 : ls.running = true) (h2 : s.error = true) :
    runPhase now env ls s = CycleOut.halted := by
  simp [runPhase, h1, h2]

/-- First-tick behaviour of `runPhase`: trigger immediately, with no
comparison against `ns_delay`, and record the trigger time. -/
lemma runPhase_first (now : Nat) (env : TickEnv) (ls : LoopState)
    (s s1 : MetronomeSettings) (h1 : ls.running = true) (h2 : s.error = false)
    (h3 : ls.first_tick = true) (hst : start_tick_thread env s = some s1) :
    runPhase now env ls s =
      CycleOut.next { ls with first_tick := false, last_tick := now } s1 true := by
  simp [runPhase, h1, h2, h3, hst]

/-- Steady-state behaviour of `runPhase`: compare the elapsed time against
the freshly loaded `ns_delay`. -/
lemma runPhase_steady (now : Nat) (env : TickEnv) (ls : LoopState)
    (s : MetronomeSettings) (h1 : ls.running = true) (h2 : s.error = false)
    (h3 : ls.first_tick = false) :
    runPhase now env ls s =
      if s.ns_delay ≤ now - ls.last_tick then
        match start_tick_thread env s with
        | none => CycleOut.panicked
        | some s1 => CycleOut.next { ls with last_tick := now } s1 true
      else CycleOut.next ls s false := by
  simp [runPhase, h1, h2, h3]

/-- C8: write-ownership frame condition — no engine step (timing loop, tick
dispatch or counter advance) ever writes bpm, ns_delay, the time-signature
fields, the subdivision flags, beats_per_bar, volume, selected_sound, the
sound list or is_running; every cycle leaves all of them unchanged. -/
theorem c8_write_ownership_frame (now : Nat) (env : TickEnv) (de : Bool)
    (ls : LoopState) (s : MetronomeSettings) :
    ∀ ls1 s1 t, engineCycle now env de ls s = CycleOut.next ls1 s1 t →
      s1.bpm = s.bpm ∧ s1.ns_delay = s.ns_delay ∧ s1.ts_note = s.ts_note ∧
      s1.ts_value = s.ts_value ∧ s1.ts_triplets = s.ts_triplets ∧
      s1.sub_eights = s.sub_eights ∧ s1.sub_sixteens = s.sub_sixteens ∧
      s1.beats_per_bar = s.beats_per_bar ∧ s1.volume = s.volume ∧
      s1.sound_list = s.sound_list ∧ s1.selected_sound = s.selected_sound ∧
      s1.is_running = s.is_running := by
  intro ls1 s1 t h
  have hcf := engineCycle_frame h
  simp only [controlFields, Prod.mk.injEq] at hcf
  exact hcf

/-- C8 witness: the frame condition at a concrete first-tick cycle that
does advance the beat counter. -/
theorem c8_write_ownership_frame_witness :
    (beat_count sampleSettings).bpm = sampleSettings.bpm ∧
    (beat_count sampleSettings).ns_delay = sampleSettings.ns_delay ∧
    (beat_count sampleSettings).ts_note = sampleSettings.ts_note ∧
    (beat_count sampleSettings).ts_value = sampleSettings.ts_value ∧
    (beat_count sampleSettings).ts_triplets = sampleSettings.ts_triplets ∧
    (beat_count sampleSettings).sub_eights = sampleSettings.sub_eights ∧
    (beat_count sampleSettings).sub_sixteens = sampleSettings.sub_sixteens ∧
    (beat_count sampleSettings).beats_per_bar = sampleSettings.beats_per_bar ∧
    (beat_count sampleSettings).volume = sampleSettings.volume ∧
    (beat_count sampleSettings).sound_list = sampleSettings.sound_list ∧
    (beat_count sampleSettings).selected_sound = sampleSettings.selected_sound ∧
    (beat_count sampleSettings).is_running = sampleSettings.is_running :=
  c8_write_ownership_frame 7 { open_ok := true, decode_ok := true, play_ok := true }
    false { running := true, first_tick := true, last_tick := 0 } sampleSettings
    { running := true, first_tick := false, last_tick := 7 }
    (beat_count sampleSettings) true rfl

/-- C4: in every loop iteration that observes `running = true` and
`error = true` the engine exits the loop before any trigger, and no cycle
ever writes `is_running`, so it stays whatever the ControlSurface set. -/
theorem c4_error_halts_engine (now : Nat) (env : TickEnv) (de : Bool)
    (ls : LoopState) (s : MetronomeSettings) :
    (ls.running = true → s.error = true →
        engineCycle now env de ls s = CycleOut.halted) ∧
    (∀ ls1 s1 t, engineCycle now env de ls s = CycleOut.next ls1 s1 t →
        s1.is_running = s.is_running) := by
  constructor
  · intro h1 h2
    unfold engineCycle
    rw [runPhase_error now env ls s h1 h2]
    rfl
  · intro ls1 s1 t h
    exact is_running_of_controlFields (engineCycle_frame h)

/-- C4 witness: a concrete running cycle with the error flag set halts. -/
theorem c4_error_halts_engine_witness :
    engineCycle 0 { open_ok := true, decode_ok := true, play_ok := true } false
      { running := true, first_tick := true, last_tick := 0 }
      { sampleSettings with error := true } = CycleOut.halted :=
  (c4_error_halts_engine 0 { open_ok := true, decode_ok := true, play_ok := true }
    false { running := true, first_tick := true, last_tick := 0 }
    { sampleSettings with error := true }).1 rfl rfl

/-- C3 counterexample: a trigger whose tick fails with the load error still
advances the beat counter — from the reset snapshot the failed tick moves
`current_beat_count` from 0 to 1 instead of leaving it unchanged. -/
theorem c3_failed_tick_counterexample :
    (start_tick_thread { open_ok := false, decode_ok := true, play_ok := true }
        sampleSettings).map MetronomeSettings.current_beat_count = some 1 ∧
    sampleSettings.current_beat_count = 0 := by
  decide

/-- C3 (amended): the engine counts every dispatched trigger, successful or
not — a tick failing with the load error sets the error flag and still
advances the beat/bar counters exactly as a successful tick would; the
engine only stops at the next cycle, whose error check halts the loop. -/
theorem c3_failed_tick_still_counts_amended (env env2 : TickEnv) (now : Nat)
    (de : Bool) (ls : LoopState) (s s1 : MetronomeSettings)
    (hopen : env.open_ok = false)
    (hst : start_tick_thread env s = some s1) :
    s1.error = true ∧
    s1.current_beat_count = (beat_count s).current_beat_count ∧
    s1.bar_count = (beat_count s).bar_count ∧
    (ls.running = true → engineCycle now env2 de ls s1 = CycleOut.halted) := by
  simp only [start_tick_thread] at hst
  split at hst
  · exact Option.noConfusion hst
  · simp only [metronome_tick, hopen, Bool.false_eq_true, if_true,
      Option.some.injEq] at hst
    subst hst
    refine ⟨by simp [beat_count_error], by simp [beat_count_current],
      by simp [beat_count_bar], ?_⟩
    intro hrun
    unfold engineCycle
    rw [runPhase_error now env2 ls _ hrun (by simp [beat_count_error])]
    rfl

/-- C3 witness: the amended behaviour at the concrete failing tick — the
error flag is set, the counter advanced, and the next running cycle halts. -/
theorem c3_failed_tick_still_counts_witness :
    (beat_count { sampleSettings with error := true }).error = true ∧
    (beat_count { sampleSettings with error := true }).current_beat_count =
      (beat_count sampleSettings).current_beat_count ∧
    (beat_count { sampleSettings with error := true }).bar_count =
      (beat_count sampleSettings).bar_count ∧
    engineCycle 9 { open_ok := true, decode_ok := true, play_ok := true } false
        { running := true, first_tick := false, last_tick := 2 }
        (beat_count { sampleSettings with error := true }) = CycleOut.halted := by
  have h := c3_failed_tick_still_counts_amended
    { open_ok := false, decode_ok := true, play_ok := true }
    { open_ok := true, decode_ok := true, play_ok := true } 9 false
    { running := true, first_tick := false, last_tick := 2 }
    sampleSettings (beat_count { sampleSettings with error := true })
    rfl (by decide)
  exact ⟨h.1, h.2.1, h.2.2.1, h.2.2.2 rfl⟩

/-- C5 counterexample: an asset that opens but cannot be decoded does not
produce the SoundLoadError kind — the `Decoder::new(..).unwrap()` panics. -/
theorem c5_decode_panic_counterexample :
    (metronome_tick { open_ok := true, decode_ok := false, play_ok := true }
        100).outcome = TickOutcome.panicked ∧
    TickOutcome.panicked ≠ TickOutcome.soundLoadError := by
  decide

/-- C5 (amended): `metronome_tick` returns the single SoundLoadError kind
exactly when the asset cannot be opened; a decode failure panics instead of
being coerced, and a play-dispatch failure is discarded so the call still
succeeds; on success it returns right after dispatching playback scaled by
volume/100, independently of whether playback itself succeeds. -/
theorem c5_tick_error_taxonomy_amended (env : TickEnv) (volume : Rat) :
    ((metronome_tick env volume).outcome = TickOutcome.soundLoadError ↔
        env.open_ok = false) ∧
    ((metronome_tick env volume).outcome = TickOutcome.panicked ↔
        env.open_ok = true ∧ env.decode_ok = false) ∧
    ((metronome_tick env volume).outcome = TickOutcome.success ↔
        env.open_ok = true ∧ env.decode_ok = true) ∧
    ((metronome_tick env volume).play_request =
        if env.open_ok && env.decode_ok then some (volume / 100) else none) ∧
    (∀ p1 p2 : Bool,
        metronome_tick { env with play_ok := p1 } volume =
          metronome_tick { env with play_ok := p2 } volume) := by
  cases env with
  | mk o d p => cases o <;> cases d <;> simp [metronome_tick]

/-- C9: if the selected sound index is within the bounds of the sound list,
the lookup in `start_tick_thread` is in bounds and the panic branch is
unreachable. -/
theorem c9_sound_index_in_bounds (env : TickEnv) (s : MetronomeSettings)
    (h : s.selected_sound < s.sound_list.length) :
    (s.sound_list.get? s.selected_sound).isSome = true ∧
    start_tick_thread env s ≠ none := by
  have hs : (s.sound_list.get? s.selected_sound).isSome = true := by
    rw [List.get?_eq_get h]; rfl
  refine ⟨hs, ?_⟩
  obtain ⟨s1, hst⟩ := start_tick_thread_isSome env s hs
  simp [hst]

/-- C9 witness: the in-bounds lookup at the concrete snapshot (index 0 into
a one-element sound list). -/
theorem c9_sound_index_in_bounds_witness :
    (sampleSettings.sound_list.get? sampleSettings.selected_sound).isSome = true ∧
    start_tick_thread { open_ok := true, decode_ok := true, play_ok := true }
        sampleSettings ≠ none :=
  c9_sound_index_in_bounds { open_ok := true, decode_ok := true, play_ok := true }
    sampleSettings (by decide)

/-- C6: first running cycle after a start triggers immediately (for every
value of `ns_delay`) and records the trigger time; every later running cycle
reads `ns_delay` fresh from the settings of that cycle and triggers exactly
when the elapsed time since the last trigger reaches it. -/
theorem c6_tick_timing (now : Nat) (env : TickEnv) (de : Bool)
    (ls : LoopState) (s : MetronomeSettings)
    (hrun : ls.running = true) (herr : s.error = false)
    (hisr : s.is_running = true)
    (hsound : (s.sound_list.get? s.selected_sound).isSome = true) :
    (ls.first_tick = true →
      ∀ d : Nat,
        (engineCycle now env de ls { s with ns_delay := d }).ticked
            = some true ∧
        (engineCycle now env de ls { s with ns_delay := d }).loopState =
          some { ls with first_tick := false, last_tick := now }) ∧
    (ls.first_tick = false →
      (engineCycle now env de ls s).ticked =
        some (decide (s.ns_delay ≤ now - ls.last_tick)) ∧
      (engineCycle now env de ls s).loopState =
        some { ls with first_tick := false, last_tick := ite (s.ns_delay ≤ now - ls.last_tick) now ls.last_tick }) := by
  constructor
  · intro hft d
    obtain ⟨s1, hst⟩ :=
      start_tick_thread_isSome env { s with ns_delay := d } hsound
    have hr1 : s1.is_running = true := by
      rw [is_running_of_controlFields (controlFields_start_tick_thread hst)]
      exact hisr
    unfold engineCycle
    rw [runPhase_first now env ls { s with ns_delay := d } s1 hrun herr hft hst]
    simp [postPhase, CycleOut.ticked, CycleOut.loopState, hr1, hrun]
  · intro hft
    unfold engineCycle
    rw [runPhase_steady now env ls s hrun herr hft]
    by_cases hd : s.ns_delay ≤ now - ls.last_tick
    · obtain ⟨s1, hst⟩ := start_tick_thread_isSome env s hsound
      have hr1 : s1.is_running = true := by
        rw [is_running_of_controlFields (controlFields_start_tick_thread hst)]
        exact hisr
      rw [if_pos hd, hst]
      simp [postPhase, CycleOut.ticked, CycleOut.loopState, hr1, hd, hft, hrun]
    · rw [if_neg hd]
      simp [postPhase, CycleOut.ticked, CycleOut.loopState, hisr, hd, hft, hrun]

/-- C6 witness: a concrete first-tick cycle fires immediately even with a
large delay value and records the wake instant 5 as the trigger time. -/
theorem c6_tick_timing_witness :
    (engineCycle 5 { open_ok := true, decode_ok := true, play_ok := true } false
        { running := true, first_tick := true, last_tick := 0 }
        { sampleSettings with ns_delay := 7 }).ticked = some true ∧
    (engineCycle 5 { open_ok := true, decode_ok := true, play_ok := true } false
        { running := true, first_tick := true, last_tick := 0 }
        { sampleSettings with ns_delay := 7 }).loopState =
      some { running := true, first_tick := false, last_tick := 5 } :=
  (c6_tick_timing 5 { open_ok := true, decode_ok := true, play_ok := true } false
    { running := true, first_tick := true, last_tick := 0 } sampleSettings
    rfl rfl rfl (by decide)).1 rfl 7

/-- A cycle on a stopped engine resets both counters to their fixed reset
values (0 and 1), marks the next tick as a first tick, dispatches nothing,
and leaves `is_running` false. -/
lemma engineCycle_stopped (now : Nat) (env : TickEnv) (de : Bool)
    (ls : LoopState) (s : MetronomeSettings)
    (hrun : ls.running = false) (hisr : s.is_running = false) :
    (engineCycle now env de ls s).ticked = some false ∧
    (engineCycle now env de ls s).loopState =
      some { ls with running := false, first_tick := true } ∧
    (engineCycle now env de ls s).settings.map
        MetronomeSettings.current_beat_count = some 0 ∧
    (engineCycle now env de ls s).settings.map MetronomeSettings.bar_count
      = some 1 ∧
    (engineCycle now env de ls s).settings.map MetronomeSettings.is_running
      = some false := by
  unfold engineCycle
  rw [runPhase_not_running now env ls s hrun]
  by_cases hdbg : (s.debug && de) = true
  · simp [postPhase, hisr, hdbg, CycleOut.ticked, CycleOut.loopState,
      CycleOut.settings]
  · rw [Bool.not_eq_true] at hdbg
    simp [postPhase, hisr, hdbg, CycleOut.ticked, CycleOut.loopState,
      CycleOut.settings]

/-- C7: stopping is idempotent — a wake cycle that observes
`is_running = false` resets `current_beat_count` to 0 and `bar_count` to 1,
marks the next tick as a first tick and does not trigger; running the
stopped cycle again yields the same counter state, and neither run fails. -/
theorem c7_stop_idempotent (now : Nat) (env : TickEnv) (de : Bool)
    (ls : LoopState) (s : MetronomeSettings)
    (hrun : ls.running = false) (hisr : s.is_running = false) :
    (engineCycle now env de ls s).ticked = some false ∧
    (engineCycle now env de ls s).loopState =
      some { ls with running := false, first_tick := true } ∧
    (engineCycle now env de ls s).settings.map
        MetronomeSettings.current_beat_count = some 0 ∧
    (engineCycle now env de ls s).settings.map MetronomeSettings.bar_count
      = some 1 ∧
    (∀ s1, (engineCycle now env de ls s).settings = some s1 →
      ∀ (now2 : Nat) (env2 : TickEnv) (de2 : Bool),
        (engineCycle now2 env2 de2
            { ls with running := false, first_tick := true } s1).ticked
          = some false ∧
        (engineCycle now2 env2 de2
            { ls with running := false, first_tick := true } s1).settings.map
            MetronomeSettings.current_beat_count = some 0 ∧
        (engineCycle now2 env2 de2
            { ls with running := false, first_tick := true } s1).settings.map
            MetronomeSettings.bar_count = some 1) := by
  obtain ⟨h1, h2, h3, h4, h5⟩ := engineCycle_stopped now env de ls s hrun hisr
  refine ⟨h1, h2, h3, h4, ?_⟩
  intro s1 hs1 now2 env2 de2
  have hr1 : s1.is_running = false := by
    rw [hs1] at h5
    simpa using h5
  have h6 := engineCycle_stopped now2 env2 de2
    { ls with running := false, first_tick := true } s1 rfl hr1
  exact ⟨h6.1, h6.2.2.1, h6.2.2.2.1⟩

/-- A concrete stopped snapshot with mid-bar counter values, used to watch
the stop reset happen. -/
def stoppedSettings : MetronomeSettings :=
  { sampleSettings with is_running := false, current_beat_count := 2, bar_count := 5 }

/-- C7 witness: a concrete stopped cycle from a mid-bar counter state
resets the counters and does not trigger. -/
theorem c7_stop_idempotent_witness :
    (engineCycle 0 { open_ok := true, decode_ok := true, play_ok := true } false
        { running := false, first_tick := false, last_tick := 3 }
        stoppedSettings).ticked = some false ∧
    (engineCycle 0 { open_ok := true, decode_ok := true, play_ok := true } false
        { running := false, first_tick := false, last_tick := 3 }
        stoppedSettings).loopState =
      some { running := false, first_tick := true, last_tick := 3 } ∧
    (engineCycle 0 { open_ok := true, decode_ok := true, play_ok := true } false
        { running := false, first_tick := false, last_tick := 3 }
        stoppedSettings).settings.map MetronomeSettings.current_beat_count
      = some 0 ∧
    (engineCycle 0 { open_ok := true, decode_ok := true, play_ok := true } false
        { running := false, first_tick := false, last_tick := 3 }
        stoppedSettings).settings.map MetronomeSettings.bar_count = some 1 := by
  have h := c7_stop_idempotent 0
    { open_ok := true, decode_ok := true, play_ok := true } false
    { running := false, first_tick := false, last_tick := 3 }
    stoppedSettings rfl rfl
  exact ⟨h.1, h.2.1, h.2.2.1, h.2.2.2.1⟩

/-- C10: wraparound menu navigation needs a non-empty item list — on the
empty list `Menu.next` with any current selection (and `Menu.previous` with
selection 0) hits the underflowing `items.len() - 1` and has no result, and
with no current selection both operations select index 0, which is not in
bounds of the empty list; on any non-empty list both operations always
produce a result. -/
theorem c10_menu_nonempty_precondition :
    (∀ i : Nat, Menu.next { items := [], selected := some i } = none) ∧
    (Menu.previous { items := [], selected := some 0 } = none) ∧
    (Menu.next { items := [], selected := none } =
        some { items := [], selected := some 0 } ∧
      ¬ (0 < ([] : List String).length)) ∧
    (Menu.previous { items := [], selected := none } =
        some { items := [], selected := some 0 }) ∧
    (∀ (items : List String) (sel : Option Nat), items ≠ [] →
      (Menu.next { items := items, selected := sel }).isSome = true ∧
      (Menu.previous { items := items, selected := sel }).isSome = true) := by
  refine ⟨fun i => rfl, rfl, ⟨rfl, by decide⟩, rfl, ?_⟩
  intro items sel hne
  cases items with
  | nil => exact absurd rfl hne
  | cons a l =>
      cases sel with
      | none => exact ⟨rfl, rfl⟩
      | some i =>
          constructor
          · simp [Menu.next]
          · by_cases hi : i = 0 <;> simp [Menu.previous, hi]

/-- C10 witness: on a concrete non-empty list both navigation operations
produce a result. -/
theorem c10_menu_nonempty_precondition_witness :
    (Menu.next { items := ["EmeryBoardClick.wav"], selected := some 0 }).isSome
        = true ∧
    (Menu.previous { items := ["EmeryBoardClick.wav"], selected := some 0 }).isSome = true :=
  c10_menu_nonempty_precondition.2.2.2.2 ["EmeryBoardClick.wav"] (some 0)
    (by decide)

end ReadyMetronome
